import Mathlib

/-!
Verification of the crawl-orchestration core of the WorkAggregation
repository (`spider/spider_main.py`), as a shallow embedding in Lean 4.

Pure logic of the Python code is translated into executable Lean
definitions; process/queue effects are modelled as explicit traces
(the list of records a task pushes, the list of pop results a writer
observes, the list of orchestration events of one batch).
-/

namespace WorkAggregation

/-! ### Remote entries and normalized records

An `Entry` is one element of `resultbody.job.items` in a fetched page;
every field the code reads with `.get(...)` is optional.
A `Record` is the dict built in `Job51Spider.run` (spider_main.py,
lines 139-146) and pushed onto the result queue. -/

structure Entry where
  jobName : Option String
  jobAreaString : Option String
  provideSalaryString : Option String
  workYearString : Option String
  degreeString : Option String
  companyTypeString : Option String
  companyIndustryType1Str : Option String
  companyIndustryType2Str : Option String
  jobDescribe : Option String
deriving DecidableEq

structure Record where
  provider : String
  keyword : String
  title : Option String
  place : Option String
  salary : Option String
  experience : Option String
  education : Option String
  companytype : Option String
  industry : String
  description : Option String
deriving DecidableEq

/-- Python f-string interpolation of a possibly-missing value:
`f"{x}"` renders `None` as the four-character string `"None"`. -/
def pyStr : Option String → String
  | none => "None"
  | some s => s

/-- The `result` dict construction of `Job51Spider.run` (lines 139-146):
direct field copies for most columns, and an f-string
`f"{...Type1Str} / {...Type2Str}"` for `industry`. -/
def mkResult (keyword : String) (e : Entry) : Record :=
  { provider := "前程无忧网"
    keyword := keyword
    title := e.jobName
    place := e.jobAreaString
    salary := e.provideSalaryString
    experience := e.workYearString
    education := e.degreeString
    companytype := e.companyTypeString
    industry := pyStr e.companyIndustryType1Str ++ " / " ++ pyStr e.companyIndustryType2Str
    description := e.jobDescribe }

/-- An `Entry` with every optional remote field absent. -/
def emptyEntry : Entry :=
  { jobName := none, jobAreaString := none, provideSalaryString := none
    workYearString := none, degreeString := none, companyTypeString := none
    companyIndustryType1Str := none, companyIndustryType2Str := none
    jobDescribe := none }

/-! ### The paginated fetch and the spider main loop -/

/-- Result of one `request_json` call: either the response carries an
`"error"` key, or it carries a (possibly empty) list of job entries at
`resultbody.job.items`. -/
inductive FetchResult
  | error : FetchResult
  | page : List Entry → FetchResult
deriving DecidableEq

/-- Why the `while True` loop of `Job51Spider.run` stopped.
`outOfFuel` is a model artefact: the modelled horizon ended before any
of the three break conditions fired. -/
inductive Outcome
  | limitReached
  | fetchError
  | exhausted
  | outOfFuel
deriving DecidableEq

/-- The inner `for job in jobs` loop of `Job51Spider.run` (lines 135-148):
starting from counter `count`, consume entries while `count < limit`,
pushing `mkResult` of each consumed entry; return the new counter and the
records pushed, in order. -/
def processPage (limit : Nat) (kw : String) (count : Nat) : List Entry → Nat × List Record
  | [] => (count, [])
  | e :: rest =>
    if limit ≤ count then (count, [])
    else
      let next := processPage limit kw (count + 1) rest
      (next.1, mkResult kw e :: next.2)

/-- The outer `while True` loop of `Job51Spider.run` (lines 118-151).
`fetch page` models `request_json(self.job, page, self.city_code)`.
Checks are in source order: counter cap first, then the `"error"` key,
then an empty `items` list; otherwise the page is consumed and the loop
continues at `page + 1`. `fuel` bounds the number of iterations modelled. -/
def runLoop (fetch : Nat → FetchResult) (limit : Nat) (kw : String) :
    Nat → Nat → Nat → List Record × Outcome
  | 0, _, _ => ([], Outcome.outOfFuel)
  | fuel + 1, page, count =>
    if limit ≤ count then ([], Outcome.limitReached)
    else
      match fetch page with
      | FetchResult.error => ([], Outcome.fetchError)
      | FetchResult.page [] => ([], Outcome.exhausted)
      | FetchResult.page (e :: rest) =>
        let pr := processPage limit kw count (e :: rest)
        let next := runLoop fetch limit kw fuel (page + 1) pr.1
        (pr.2 ++ next.1, next.2)

/-- `Job51Spider.run`: the loop starts at `page = 1` with `count = 0`;
the result is the full stream of records pushed onto the queue together
with the reason the loop stopped. -/
def spiderRun (fetch : Nat → FetchResult) (limit : Nat) (kw : String)
    (fuel : Nat) : List Record × Outcome :=
  runLoop fetch limit kw fuel 1 0

/-- The Python return value of `Job51Spider.run` (line 152): after the
loop breaks — for whichever reason — the method returns the constant
string `"over"`. -/
def spiderRunReturn (fetch : Nat → FetchResult) (limit : Nat) (kw : String)
    (fuel : Nat) : String :=
  let _ := spiderRun fetch limit kw fuel
  "over"
/-! ### Timer gate of `main` (spider_main.py, lines 436-449)

`begin_time`/`end_time` are `now.replace(hour=.., minute=.., second=0,
microsecond=0)`, so the comparison `begin_time <= now < end_time` is a
same-day time-of-day comparison against window bounds whose seconds are
zero. -/

structure TimeOfDay where
  hour : Nat
  minute : Nat
  second : Nat
deriving DecidableEq

/-- Seconds since midnight, the order used by the datetime comparison
(all compared values share the same date). -/
def toSeconds (t : TimeOfDay) : Nat :=
  (t.hour * 60 + t.minute) * 60 + t.second

/-- The test `begin_time <= now < end_time` of `main` (line 442). -/
def inRunWindow (bh bm eh em : Nat) (now : TimeOfDay) : Bool :=
  decide (toSeconds { hour := bh, minute := bm, second := 0 } ≤ toSeconds now ∧
    toSeconds now < toSeconds { hour := eh, minute := em, second := 0 })

/-- What one iteration of the enabled timer loop does after checking the
window: run a batch then `time.sleep(interval_minutes * 60)`, or skip the
batch and `time.sleep(60)` before re-checking. -/
inductive TickAction
  | runBatchThenSleep (seconds : Nat)
  | waitPoll (seconds : Nat)
deriving DecidableEq

/-- One tick of the enabled timer loop of `main` (lines 436-449). -/
def timerTick (bh bm eh em interval_minutes : Nat) (now : TimeOfDay) : TickAction :=
  if inRunWindow bh bm eh em now then
    TickAction.runBatchThenSleep (interval_minutes * 60)
  else
    TickAction.waitPoll 60

/-! ### Report generation (`generate_html_from_csv`, lines 236-299)

The artifact file's parsed CSV content is modelled as
`Option (List (List String))`: `none` for a missing file
(`FileNotFoundError`), `some []` for a file with no header line
(`next(reader)` raising `StopIteration`), `some (header :: rows)`
otherwise. The function's output is the list of HTML lines joined by
newlines when written. -/

/-- The `fieldnames` header row `WriterProcess.run` writes first
(lines 213-214). -/
def writer_fieldnames : List String :=
  ["provider", "keyword", "title", "place", "salary", "experience", "education",
   "companytype", "industry", "description"]

/-- The fallback header set of `generate_html_from_csv` (lines 251-252),
used when the artifact is missing or empty. -/
def default_html_headers : List String :=
  ["provider", "keyword", "title", "place", "salary", "experience",
   "education", "companytype", "industry", "description"]

/-- The `try`/`except` read of the artifact (lines 243-252): a missing
file or a header-less file leaves zero rows and falls back to the
default headers; otherwise the first CSV line is the header row and the
rest are data rows. -/
def readCsvArtifact (content : Option (List (List String))) :
    List String × List (List String) :=
  match content with
  | none => (default_html_headers, [])
  | some [] => (default_html_headers, [])
  | some (h :: rest) => (h, rest)

/-- The fixed opening lines of the generated page (lines 255-266), up to
and including the `<tr>` that opens the header row. -/
def htmlHeadLines : List String :=
  ["<!DOCTYPE html>", "<html lang=\"zh-CN\">", "<head>",
   "    <meta charset=\"UTF-8\">",
   "<meta name=\"viewport\" content=\"width=device-width, initial-scale=1.0\">",
   "<title>招聘数据展示</title>", "<style>",
   "body \x7b font-family: Arial, sans-serif; margin: 20px; \x7d",
   "table \x7b width: 100%; border-collapse: collapse; margin-top: 20px; \x7d",
   "th, td \x7b border: 1px solid #ddd; padding: 8px; text-align: left; \x7d",
   "th \x7b background-color: #f2f2f2; \x7d",
   "tr:nth-child(even) \x7b background-color: #f9f9f9; \x7d",
   "tr:hover \x7b background-color: #f1f1f1; \x7d", "</style>",
   "</head>", "<body>", "<h1>招聘数据展示</h1>", "<table>", "<thead>", "<tr>"]

/-- The fixed navigation/style block appended near the end of the page
(lines 275-295). -/
def navBlock : String :=
  "\n        <div class=\"navbar\">\n            <a href=\"/\" class=\"nav-button\">返回主页</a>\n        </div>\n        <style>\n            .navbar \x7b\n                position: fixed; top: 0; left: 0; width: 100%;\n                background-color: #333; padding: 10px 20px;\n                box-shadow: 0 2px 5px rgba(0,0,0,0.2); z-index: 1000;\n                box-sizing: border-box;\n            \x7d\n            .nav-button \x7b\n                color: white; text-decoration: none; padding: 8px 15px;\n                border-radius: 5px; transition: background-color 0.3s;\n            \x7d\n            .nav-button:hover \x7b background-color: #555; \x7d\n            body \x7b padding-top: 60px; \x7d\n        </style>\n        "

/-- One `<th>` cell per header (lines 267-268). -/
def thCells (headers : List String) : List String :=
  headers.map (fun h => "<th>" ++ h ++ "</th>")

/-- One data row: `<tr>`, one `<td>` per cell, `</tr>` (lines 270-274). -/
def rowLines (row : List String) : List String :=
  "<tr>" :: row.map (fun cell => "<td>" ++ cell ++ "</td>") ++ ["</tr>"]

/-- All data rows of the table body. -/
def bodyRowLines (rows : List (List String)) : List String :=
  rows.flatMap rowLines

/-- `generate_html_from_csv`: the full list of HTML lines built from the
parsed artifact content (lines 241-295). -/
def generate_html_from_csv (content : Option (List (List String))) : List String :=
  let hr := readCsvArtifact content
  htmlHeadLines ++ thCells hr.1 ++ ["</tr>", "</thead>", "<tbody>"] ++
    bodyRowLines hr.2 ++ ["</tbody>", "</table>", "</body>", navBlock, "</html>"]

/-! ### Task-list fallback of `run_crawl_once` (lines 332-354) -/

/-- `DEFAULT_CITIES` (lines 334-339). -/
def DEFAULT_CITIES : List String :=
  ["北京", "上海", "广州", "深圳", "杭州", "成都", "南京", "武汉", "西安", "苏州",
   "重庆", "长沙", "天津", "青岛", "厦门", "宁波", "大连", "福州", "济南", "无锡",
   "合肥", "郑州", "沈阳", "昆明", "哈尔滨", "石家庄", "南昌", "东莞", "佛山", "珠海",
   "常州", "温州", "全国"]

/-- `DEFAULT_JOBS` (lines 340-350). -/
def DEFAULT_JOBS : List String :=
  ["Java", "Python", "Go", "C++", "PHP", "后端开发", "服务器",
   "前端开发", "JavaScript", "Vue", "React", "小程序", "Android", "iOS",
   "数据分析", "数据挖掘", "大数据", "算法工程师", "机器学习", "人工智能", "AI",
   "深度学习", "自然语言处理", "NLP", "推荐系统",
   "软件测试", "测试开发", "自动化测试", "运维", "DevOps", "SRE",
   "游戏开发", "Unity", "UE4", "UE5", "游戏策划",
   "嵌入式", "物联网", "IoT", "硬件",
   "产品经理", "项目经理", "技术支持", "网络安全", "爬虫", "可视化",
   "UI设计师", "销售", "运营"]

/-- Python's `x or dflt` on an optional list parameter: any falsy value
(`None` from a missing key, or an empty list) yields the default. -/
def pyOrDefault (param : Option (List String)) (dflt : List String) : List String :=
  match param with
  | none => dflt
  | some l => if l.isEmpty then dflt else l

/-- `city_list = dict_parameter.get("city") or DEFAULT_CITIES` (line 353). -/
def city_list (p : Option (List String)) : List String :=
  pyOrDefault p DEFAULT_CITIES

/-- `job_list = dict_parameter.get("job") or DEFAULT_JOBS` (line 354). -/
def job_list (p : Option (List String)) : List String :=
  pyOrDefault p DEFAULT_JOBS

/-! ### Sample fetch functions used as concrete witnesses -/

/-- A fetch stream whose first two pages hold two entries each and whose
later pages are empty. -/
def sampleFetch : Nat → FetchResult := fun p =>
  if p ≤ 2 then FetchResult.page [emptyEntry, emptyEntry] else FetchResult.page []

/-- A fetch stream that fails on every page. -/
def fetchAlwaysError : Nat → FetchResult := fun _ => FetchResult.error

/-- A fetch stream whose every page is empty. -/
def fetchAlwaysEmpty : Nat → FetchResult := fun _ => FetchResult.page []

/-! ### Orchestration trace of one batch (`run_crawl_once`, lines 326-404)

The parent's side effects are modelled as an ordered event trace:
start the writer; in concurrent mode start each `SpiderProcess` (with
the fixed 1.5 s inter-launch `time.sleep`) then join them all, in serial
mode call `run_single_task` per task; put the `"STOP"` sentinel on the
queue; join the writer; generate the HTML report. -/

inductive Event
  | startWriter
  | spawnTask (city job : String)
  | delayMs (ms : Nat)
  | joinTask (city job : String)
  | runTask (city job : String)
  | putSentinel
  | joinWriter
  | genHtml
deriving DecidableEq

/-- The concurrent spawn loop: `for city in city_list: for job in job_list:
p.start(); time.sleep(1.5)` (lines 381-387). -/
def spawnPhase (cities jobs : List String) : List Event :=
  cities.flatMap (fun c => jobs.flatMap (fun j => [Event.spawnTask c j, Event.delayMs 1500]))

/-- The join loop `for p in processes: p.join()` (lines 389-390), in the
same nested task order the processes were created in. -/
def joinPhase (cities jobs : List String) : List Event :=
  cities.flatMap (fun c => jobs.map (fun j => Event.joinTask c j))

/-- The serial fallback: `run_single_task(city, job, q, limit)` per task
(lines 394-396). -/
def serialPhase (cities jobs : List String) : List Event :=
  cities.flatMap (fun c => jobs.map (fun j => Event.runTask c j))

/-- Event trace of `run_crawl_once` after the task lists are fixed:
writer start, then the producer phase chosen by `use_concurrent`, then
exactly the tail `q.put("STOP"); writer.join(); generate_html_from_csv`. -/
def run_crawl_once_events (cities jobs : List String) (concurrent : Bool) : List Event :=
  [Event.startWriter] ++
    (if concurrent then spawnPhase cities jobs ++ joinPhase cities jobs
     else serialPhase cities jobs) ++
    [Event.putSentinel, Event.joinWriter, Event.genHtml]
/-! ### Writer drain loop (`WriterProcess.run`, lines 206-230)

The successive results of `self.queue.get(timeout=60)` are modelled as
a finite list of pop results: either an item (a record dict or the
`"STOP"` sentinel string) or a `queue.Empty` timeout. -/

/-- One value carried by the result queue: a record dict or `"STOP"`. -/
inductive QItem
  | record (r : Record)
  | stop
deriving DecidableEq

/-- One observed outcome of a `queue.get(timeout=60)` call. -/
inductive PopResult
  | got (i : QItem)
  | timedOut
deriving DecidableEq

/-- How the writer loop ended: sentinel received, or 60-second idle
timeout (`queue.Empty` caught). Both paths `break` cleanly. -/
inductive WriterExit
  | sentinel
  | idleTimeout
deriving DecidableEq

/-- The `queue.get` timeout used by `WriterProcess.run` (line 221). -/
def writerTimeoutSeconds : Nat := 60

/-- The `while True` drain loop of `WriterProcess.run` (lines 218-230):
pop; a timeout breaks with the idle exit, the `"STOP"` item breaks with
the sentinel exit, and a record is written immediately and the loop
continues. Returns the rows written, in order, and how the loop ended
(`none` when the modelled pop stream ended with the loop still going). -/
def drain : List PopResult → List Record × Option WriterExit
  | [] => ([], none)
  | PopResult.timedOut :: _ => ([], some WriterExit.idleTimeout)
  | PopResult.got QItem.stop :: _ => ([], some WriterExit.sentinel)
  | PopResult.got (QItem.record r) :: rest =>
    let next := drain rest
    (r :: next.1, next.2)

/-- Whether a pop produced an ordinary record (the loop keeps going). -/
def isRecordPop : PopResult → Bool
  | PopResult.got (QItem.record _) => true
  | _ => false

/-- The record carried by a pop, if any. -/
def popRecord : PopResult → Option Record
  | PopResult.got (QItem.record r) => some r
  | _ => none

/-- The exit the first non-record pop dictates: a timeout gives the idle
exit, the sentinel gives the sentinel exit, no non-record pop gives none. -/
def firstStopCause (pops : List PopResult) : Option WriterExit :=
  match pops.dropWhile isRecordPop with
  | PopResult.timedOut :: _ => some WriterExit.idleTimeout
  | PopResult.got QItem.stop :: _ => some WriterExit.sentinel
  | _ => none

/-! ### City code resolution (`get_city_code`, lines 28-42)

The `citycode` section of `conf.ini` is modelled as an optional
association list (absent section ↔ `NoSectionError`, absent key ↔
`NoOptionError`; both are caught and yield the nationwide default). -/

/-- `get_city_code`: look the city up in the loaded `citycode` section;
on a missing section or missing key return the default `"000000"`
(after printing a warning), never raising. -/
def get_city_code (citycodeSection : Option (List (String × String)))
    (city_name : String) : String :=
  match citycodeSection with
  | none => "000000"
  | some table =>
    match table.lookup city_name with
    | some code => code
    | none => "000000"

end WorkAggregation

namespace WorkAggregation

/-! ### Helper lemmas -/

/-! ### Helper lemmas on the spider loop -/

theorem processPage_count_ge (limit : Nat) (kw : String) :
    ∀ (es : List Entry) (count : Nat), count ≤ (processPage limit kw count es).1 := by
  intro es
  induction es with
  | nil => intro count; simp [processPage]
  | cons e rest ih =>
    intro count
    simp only [processPage]
    split
    · exact Nat.le_refl _
    · exact Nat.le_trans (Nat.le_succ count) (ih (count + 1))

theorem processPage_count_eq (limit : Nat) (kw : String) :
    ∀ (es : List Entry) (count : Nat),
      (processPage limit kw count es).1 = count + (processPage limit kw count es).2.length := by
  intro es
  induction es with
  | nil => intro count; simp [processPage]
  | cons e rest ih =>
    intro count
    simp only [processPage]
    split
    · simp
    · simp only [List.length_cons]
      rw [ih (count + 1)]
      omega

theorem processPage_count_le (limit : Nat) (kw : String) :
    ∀ (es : List Entry) (count : Nat), count ≤ limit →
      (processPage limit kw count es).1 ≤ limit := by
  intro es
  induction es with
  | nil => intro count h; simpa [processPage] using h
  | cons e rest ih =>
    intro count h
    simp only [processPage]
    split
    · exact h
    · exact ih (count + 1) (by omega)

theorem runLoop_count_le (fetch : Nat → FetchResult) (limit : Nat) (kw : String) :
    ∀ (fuel page count : Nat), count ≤ limit →
      count + (runLoop fetch limit kw fuel page count).1.length ≤ limit := by
  intro fuel
  induction fuel with
  | zero => intro page count h; simpa [runLoop] using h
  | succ f ih =>
    intro page count h
    simp only [runLoop]
    split
    · simpa using h
    · rename_i hlt
      cases hfetch : fetch page with
      | error => simpa using h
      | page es =>
        cases es with
        | nil => simpa using h
        | cons e rest =>
          simp only [List.length_append]
          have h1 := processPage_count_eq limit kw (e :: rest) count
          have h2 := processPage_count_le limit kw (e :: rest) count h
          have h3 := ih (page + 1) (processPage limit kw count (e :: rest)).1 h2
          omega

/-- With fuel at least `limit + 1`, the loop always stops through one of
the three source break conditions (never by running out of modelled fuel). -/
theorem runLoop_terminates (fetch : Nat → FetchResult) (limit : Nat) (kw : String) :
    ∀ (fuel page count : Nat), limit + 1 ≤ fuel + count → 1 ≤ fuel →
      (runLoop fetch limit kw fuel page count).2 ≠ Outcome.outOfFuel := by
  intro fuel
  induction fuel with
  | zero => intro page count _ h2; omega
  | succ f ih =>
    intro page count h1 _
    simp only [runLoop]
    split
    · simp
    · rename_i hlt
      have hcl : count < limit := by omega
      cases hfetch : fetch page with
      | error => simp
      | page es =>
        cases es with
        | nil => simp
        | cons e rest =>
          simp only
          have hinc : count + 1 ≤ (processPage limit kw count (e :: rest)).1 := by
            have := processPage_count_ge limit kw rest (count + 1)
            simp only [processPage, if_neg (by omega : ¬ limit ≤ count)]
            exact this
          exact ih (page + 1) (processPage limit kw count (e :: rest)).1
            (by omega) (by omega)

theorem putSentinel_not_mem_spawnPhase (cities jobs : List String) :
    Event.putSentinel ∉ spawnPhase cities jobs := by
  intro h
  simp only [spawnPhase, List.mem_flatMap] at h
  obtain ⟨c, _, j, _, hj⟩ := h
  simp at hj

theorem putSentinel_not_mem_joinPhase (cities jobs : List String) :
    Event.putSentinel ∉ joinPhase cities jobs := by
  intro h
  simp only [joinPhase, List.mem_flatMap, List.mem_map] at h
  obtain ⟨c, _, j, _, hj⟩ := h
  exact Event.noConfusion hj

theorem putSentinel_not_mem_serialPhase (cities jobs : List String) :
    Event.putSentinel ∉ serialPhase cities jobs := by
  intro h
  simp only [serialPhase, List.mem_flatMap, List.mem_map] at h
  obtain ⟨c, _, j, _, hj⟩ := h
  exact Event.noConfusion hj


theorem drain_characterization (pops : List PopResult) :
    (drain pops).1 = (pops.takeWhile isRecordPop).filterMap popRecord ∧
    (drain pops).2 = firstStopCause pops := by
  induction pops with
  | nil => exact ⟨rfl, rfl⟩
  | cons p rest ih =>
    cases p with
    | timedOut => exact ⟨rfl, rfl⟩
    | got i =>
      cases i with
      | stop => exact ⟨rfl, rfl⟩
      | record r =>
        refine ⟨?_, ?_⟩
        · simpa [drain, List.takeWhile, isRecordPop, popRecord, List.filterMap]
            using ih.1
        · simpa [drain, firstStopCause, List.dropWhile, isRecordPop] using ih.2

theorem firstStopCause_isSome_iff (pops : List PopResult) :
    (firstStopCause pops).isSome = true ↔
      ∃ p ∈ pops, p = PopResult.timedOut ∨ p = PopResult.got QItem.stop := by
  induction pops with
  | nil => simp [firstStopCause, List.dropWhile]
  | cons q rest ih =>
    cases q with
    | timedOut => simp [firstStopCause, List.dropWhile, isRecordPop]
    | got i =>
      cases i with
      | stop => simp [firstStopCause, List.dropWhile, isRecordPop]
      | record r =>
        simp only [firstStopCause, List.dropWhile, isRecordPop] at ih ⊢
        simp only [List.mem_cons]
        constructor
        · intro h
          obtain ⟨p, hp, hc⟩ := ih.mp h
          exact ⟨p, Or.inr hp, hc⟩
        · intro h
          obtain ⟨p, hp, hc⟩ := h
          cases hp with
          | inl he =>
            subst he
            rcases hc with hc | hc <;> simp at hc
          | inr hm => exact ih.mpr ⟨p, hm, hc⟩

/-- Claim C1: for every task, the number of records `Job51Spider.run`
pushes onto the result queue is at most `limit`; more precisely, the
counter invariant `count + (records still to be pushed) ≤ limit` holds
at every loop state with `count ≤ limit`, so in particular the full run
starting at `count = 0` emits at most `limit` records, including when a
page holds more entries than the remaining budget. -/
theorem C1_record_count_le_limit :
    ∀ (fetch : Nat → FetchResult) (limit : Nat) (kw : String) (fuel : Nat),
      (spiderRun fetch limit kw fuel).1.length ≤ limit ∧
      ∀ (page count : Nat), count ≤ limit →
        count + (runLoop fetch limit kw fuel page count).1.length ≤ limit := by
  intro fetch limit kw fuel
  constructor
  · simpa [spiderRun] using runLoop_count_le fetch limit kw fuel 1 0 (Nat.zero_le _)
  · intro page count h
    exact runLoop_count_le fetch limit kw fuel page count h

/-- Concrete instantiation of C1: a mid-stream loop state with counter 1
and limit 3 pushes at most 2 further records. -/
theorem C1_record_count_le_limit_witness :
    1 + (runLoop sampleFetch 3 "软件" 10 1 1).1.length ≤ 3 :=
  (C1_record_count_le_limit sampleFetch 3 "软件" 10).2 1 1 (by decide)

/-- Claim C2: the worker loop of `Job51Spider.run` stops exactly at the
first of, in source order: counter at the limit, a fetch error, an empty
page; on a non-empty page below the limit it continues instead, and with
fuel above `limit` it always stops through one of the three conditions. -/
theorem C2_stop_conditions :
    (∀ (fetch : Nat → FetchResult) (limit : Nat) (kw : String) (fuel page count : Nat),
        limit ≤ count →
        runLoop fetch limit kw (fuel + 1) page count = ([], Outcome.limitReached)) ∧
    (∀ (fetch : Nat → FetchResult) (limit : Nat) (kw : String) (fuel page count : Nat),
        count < limit → fetch page = FetchResult.error →
        runLoop fetch limit kw (fuel + 1) page count = ([], Outcome.fetchError)) ∧
    (∀ (fetch : Nat → FetchResult) (limit : Nat) (kw : String) (fuel page count : Nat),
        count < limit → fetch page = FetchResult.page [] →
        runLoop fetch limit kw (fuel + 1) page count = ([], Outcome.exhausted)) ∧
    (∀ (fetch : Nat → FetchResult) (limit : Nat) (kw : String) (fuel page count : Nat)
        (e : Entry) (rest : List Entry),
        count < limit → fetch page = FetchResult.page (e :: rest) →
        (runLoop fetch limit kw (fuel + 1) page count).2 =
          (runLoop fetch limit kw fuel (page + 1)
            (processPage limit kw count (e :: rest)).1).2) ∧
    (∀ (fetch : Nat → FetchResult) (limit : Nat) (kw : String) (fuel page count : Nat),
        limit + 1 ≤ fuel →
        (runLoop fetch limit kw fuel page count).2 ≠ Outcome.outOfFuel) := by
  refine ⟨?_, ?_, ?_, ?_, ?_⟩
  · intro fetch limit kw fuel page count h
    simp [runLoop, h]
  · intro fetch limit kw fuel page count h hf
    simp [runLoop, hf, Nat.not_le.mpr h]
  · intro fetch limit kw fuel page count h hf
    simp [runLoop, hf, Nat.not_le.mpr h]
  · intro fetch limit kw fuel page count e rest h hf
    simp [runLoop, hf, Nat.not_le.mpr h]
  · intro fetch limit kw fuel page count h
    exact runLoop_terminates fetch limit kw fuel page count (by omega) (by omega)

/-- Concrete instantiation of C2: a loop state whose counter already
reached the limit stops at once with `limitReached`, and a full run from
counter 0 with fuel above the limit does not run out of fuel. -/
theorem C2_stop_conditions_witness :
    runLoop sampleFetch 3 "软件" 5 1 7 = ([], Outcome.limitReached) ∧
    (runLoop sampleFetch 3 "软件" 10 1 0).2 ≠ Outcome.outOfFuel :=
  ⟨C2_stop_conditions.1 sampleFetch 3 "软件" 4 1 7 (by decide),
   C2_stop_conditions.2.2.2.2 sampleFetch 3 "软件" 10 1 0 (by decide)⟩

/-- Claim C3: in every batch — concurrent or serial — the sentinel is
enqueued exactly once, and it is enqueued only after every producer has
finished: the trace splits as a body holding no sentinel and containing
the join (or serial completion) of every task, followed by the sentinel
put, the writer join and the report generation. -/
theorem C3_sentinel_once_after_producers :
    ∀ (cities jobs : List String) (concurrent : Bool),
      (run_crawl_once_events cities jobs concurrent).count Event.putSentinel = 1 ∧
      ∃ body, run_crawl_once_events cities jobs concurrent =
          body ++ [Event.putSentinel, Event.joinWriter, Event.genHtml] ∧
        Event.putSentinel ∉ body ∧
        ∀ c ∈ cities, ∀ j ∈ jobs,
          (if concurrent then Event.joinTask c j else Event.runTask c j) ∈ body := by
  intro cities jobs concurrent
  have hnotmem : Event.putSentinel ∉
      [Event.startWriter] ++
        (if concurrent then spawnPhase cities jobs ++ joinPhase cities jobs
         else serialPhase cities jobs) := by
    intro h
    rcases List.mem_append.mp h with h | h
    · simp at h
    · split at h
      · rcases List.mem_append.mp h with h | h
        · exact putSentinel_not_mem_spawnPhase cities jobs h
        · exact putSentinel_not_mem_joinPhase cities jobs h
      · exact putSentinel_not_mem_serialPhase cities jobs h
  have hsplit : run_crawl_once_events cities jobs concurrent =
      ([Event.startWriter] ++
        (if concurrent then spawnPhase cities jobs ++ joinPhase cities jobs
         else serialPhase cities jobs)) ++
        [Event.putSentinel, Event.joinWriter, Event.genHtml] := by
    simp [run_crawl_once_events]
  refine ⟨?_, _, hsplit, hnotmem, ?_⟩
  · rw [hsplit, List.count_append, List.count_eq_zero.mpr hnotmem]
    rfl
  · intro c hc j hj
    cases concurrent with
    | true =>
      refine List.mem_append.mpr (Or.inr ?_)
      show Event.joinTask c j ∈ spawnPhase cities jobs ++ joinPhase cities jobs
      refine List.mem_append.mpr (Or.inr ?_)
      exact List.mem_flatMap.mpr ⟨c, hc, List.mem_map.mpr ⟨j, hj, rfl⟩⟩
    | false =>
      refine List.mem_append.mpr (Or.inr ?_)
      show Event.runTask c j ∈ serialPhase cities jobs
      exact List.mem_flatMap.mpr ⟨c, hc, List.mem_map.mpr ⟨j, hj, rfl⟩⟩

/-- Concrete instantiation of C3: for the one-task concurrent batch
(北京, 软件) the sentinel appears exactly once, after the task's join. -/
theorem C3_sentinel_once_after_producers_witness :
    (run_crawl_once_events ["北京"] ["软件"] true).count Event.putSentinel = 1 ∧
    ∃ body, run_crawl_once_events ["北京"] ["软件"] true =
        body ++ [Event.putSentinel, Event.joinWriter, Event.genHtml] ∧
      Event.putSentinel ∉ body ∧
      Event.joinTask "北京" "软件" ∈ body := by
  obtain ⟨h1, body, h2, h3, h4⟩ := C3_sentinel_once_after_producers ["北京"] ["软件"] true
  exact ⟨h1, body, h2, h3, by simpa using h4 "北京" (by simp) "软件" (by simp)⟩

/-- Claim C4: the writer drain loop stops exactly when it pops the
sentinel or a pop times out after the fixed 60-second idle interval —
both ends are clean breaks, the exit cause matches the first non-record
pop, and the rows written are precisely the records popped before that
first stop, in order. -/
theorem C4_writer_drain :
    ∀ (pops : List PopResult),
      ((drain pops).2.isSome = true ↔
        ∃ p ∈ pops, p = PopResult.timedOut ∨ p = PopResult.got QItem.stop) ∧
      (drain pops).1 = (pops.takeWhile isRecordPop).filterMap popRecord ∧
      (drain pops).2 = firstStopCause pops ∧
      writerTimeoutSeconds = 60 := by
  intro pops
  have h := drain_characterization pops
  refine ⟨?_, h.1, h.2, rfl⟩
  rw [h.2]
  exact firstStopCause_isSome_iff pops

/-- Claim C5: `get_city_code` is total (never raises): a city present in
the loaded table returns its configured code, any missing section or
unknown city returns the nationwide default `"000000"`, and repeated
calls with the same input always return the same value. -/
theorem C5_get_city_code_never_raises :
    ∀ (sec : Option (List (String × String))) (city : String),
      (∀ (table : List (String × String)) (code : String),
          sec = some table → table.lookup city = some code →
          get_city_code sec city = code) ∧
      ((sec = none ∨ ∃ table, sec = some table ∧ table.lookup city = none) →
        get_city_code sec city = "000000") ∧
      get_city_code sec city = get_city_code sec city := by
  intro sec city
  refine ⟨?_, ?_, rfl⟩
  · intro table code hs hl
    subst hs
    simp [get_city_code, hl]
  · intro h
    rcases h with h | ⟨table, hs, hl⟩
    · subst h; rfl
    · subst hs; simp [get_city_code, hl]

/-- Concrete instantiation of C5: with a one-row table for 北京, the
configured code comes back for 北京 and the default for the unknown
city 福州. -/
theorem C5_get_city_code_witness :
    get_city_code (some [("北京", "010000")]) "北京" = "010000" ∧
    get_city_code (some [("北京", "010000")]) "福州" = "000000" :=
  ⟨(C5_get_city_code_never_raises (some [("北京", "010000")]) "北京").1
      [("北京", "010000")] "010000" rfl (by decide),
   (C5_get_city_code_never_raises (some [("北京", "010000")]) "福州").2.1
      (Or.inr ⟨[("北京", "010000")], rfl, by decide⟩)⟩

/-- Claim C7 (counterexample): `Job51Spider.run` does not return a
status distinguishing the stop cause — a run stopped by a fetch error
and a run stopped by page exhaustion both return the same constant
string `"over"`, so the result is not three distinct values matching
the termination cause. -/
theorem C7_counterexample_return_not_distinguishing :
    (spiderRun fetchAlwaysError 5 "软件" 10).2 = Outcome.fetchError ∧
    (spiderRun fetchAlwaysEmpty 5 "软件" 10).2 = Outcome.exhausted ∧
    Outcome.fetchError ≠ Outcome.exhausted ∧
    spiderRunReturn fetchAlwaysError 5 "软件" 10 =
      spiderRunReturn fetchAlwaysEmpty 5 "软件" 10 := by
  refine ⟨rfl, rfl, by decide, rfl⟩

/-- Claim C7 (amended): `Job51Spider.run` always returns the single
constant string `"over"` whatever ended the task; the stop cause is
reported only through log output, never through the return value. -/
theorem C7_amended_run_returns_over :
    ∀ (fetch : Nat → FetchResult) (limit : Nat) (kw : String) (fuel : Nat),
      spiderRunReturn fetch limit kw fuel = "over" :=
  fun _ _ _ _ => rfl

/-- Claim C8 (counterexample): a record built from an entry with every
optional remote field absent does not have an empty `industry` field —
the f-string renders the two missing industry parts as the literal
string `"None / None"`. -/
theorem C8_counterexample_industry_not_empty :
    (mkResult "软件" emptyEntry).industry = "None / None" ∧
    (mkResult "软件" emptyEntry).industry ≠ "" := by
  exact ⟨rfl, by decide⟩

/-- Claim C8 (amended): every directly-copied field of a record is the
entry's field unchanged (missing maps to missing, pure
null-propagation), while `industry` is the f-string join of the two
industry parts, which renders as `"None / None"` when both are absent;
on the all-absent entry every directly-copied optional field is empty. -/
theorem C8_amended_null_propagation :
    ∀ (kw : String) (e : Entry),
      (mkResult kw e).provider = "前程无忧网" ∧
      (mkResult kw e).keyword = kw ∧
      (mkResult kw e).title = e.jobName ∧
      (mkResult kw e).place = e.jobAreaString ∧
      (mkResult kw e).salary = e.provideSalaryString ∧
      (mkResult kw e).experience = e.workYearString ∧
      (mkResult kw e).education = e.degreeString ∧
      (mkResult kw e).companytype = e.companyTypeString ∧
      (mkResult kw e).industry =
        pyStr e.companyIndustryType1Str ++ " / " ++ pyStr e.companyIndustryType2Str ∧
      (mkResult kw e).description = e.jobDescribe ∧
      (mkResult kw emptyEntry).title = none ∧
      (mkResult kw emptyEntry).place = none ∧
      (mkResult kw emptyEntry).salary = none ∧
      (mkResult kw emptyEntry).experience = none ∧
      (mkResult kw emptyEntry).education = none ∧
      (mkResult kw emptyEntry).companytype = none ∧
      (mkResult kw emptyEntry).description = none ∧
      (mkResult kw emptyEntry).industry = "None / None" :=
  fun _ _ =>
    ⟨rfl, rfl, rfl, rfl, rfl, rfl, rfl, rfl, rfl, rfl,
     rfl, rfl, rfl, rfl, rfl, rfl, rfl, rfl⟩

/-- Claim C6: a tick of the enabled timer loop starts a batch if and
only if `begin ≤ now < end` at minute granularity within the day (end
exclusive); after an in-window batch the loop sleeps
`interval_minutes * 60` seconds, outside the window it sleeps the fixed
60-second poll cadence; for window [02:00, 05:00) a tick at 01:59 starts
no batch and a tick at 02:00 does. -/
theorem C6_timer_window_gate :
    ∀ (bh bm eh em interval : Nat) (now : TimeOfDay), now.second < 60 →
      ((timerTick bh bm eh em interval now =
          TickAction.runBatchThenSleep (interval * 60)) ↔
        (bh * 60 + bm ≤ now.hour * 60 + now.minute ∧
          now.hour * 60 + now.minute < eh * 60 + em)) ∧
      (timerTick bh bm eh em interval now =
          TickAction.runBatchThenSleep (interval * 60) ∨
        timerTick bh bm eh em interval now = TickAction.waitPoll 60) ∧
      timerTick 2 0 5 0 60 { hour := 1, minute := 59, second := 0 } =
        TickAction.waitPoll 60 ∧
      timerTick 2 0 5 0 60 { hour := 2, minute := 0, second := 0 } =
        TickAction.runBatchThenSleep 3600 := by
  intro bh bm eh em interval now hsec
  refine ⟨?_, ?_, by decide, by decide⟩
  · unfold timerTick
    split
    · rename_i h
      simp only [inRunWindow, toSeconds, decide_eq_true_eq] at h
      constructor
      · intro _
        constructor <;> omega
      · intro _
        rfl
    · rename_i h
      simp only [inRunWindow, toSeconds, decide_eq_true_eq] at h
      constructor
      · intro hc
        exact absurd hc (by simp)
      · intro hm
        exfalso
        apply h
        constructor <;> omega
  · unfold timerTick
    split
    · exact Or.inl rfl
    · exact Or.inr rfl

/-- Concrete instantiation of C6: at 02:30:15 inside window [02:00,
05:00) a batch starts (then the loop sleeps 3600 seconds), while at
01:59:00 no batch starts (the loop polls again in 60 seconds). -/
theorem C6_timer_window_gate_witness :
    timerTick 2 0 5 0 60 { hour := 2, minute := 30, second := 15 } =
      TickAction.runBatchThenSleep 3600 ∧
    timerTick 2 0 5 0 60 { hour := 1, minute := 59, second := 0 } =
      TickAction.waitPoll 60 :=
  ⟨(C6_timer_window_gate 2 0 5 0 60 { hour := 2, minute := 30, second := 15 }
      (by decide)).1.mpr (by decide),
   (C6_timer_window_gate 2 0 5 0 60 { hour := 1, minute := 59, second := 0 }
      (by decide)).2.2.1⟩

/-- Claim C9: on a missing artifact file, or an artifact with no header
line, `generate_html_from_csv` produces the page whose header row is the
fixed 10-column default header set and whose table body holds zero data
rows, raising nothing (both exception paths are caught). -/
theorem C9_missing_artifact_defaults :
    ∀ (content : Option (List (List String))),
      content = none ∨ content = some [] →
      readCsvArtifact content = (default_html_headers, []) ∧
      generate_html_from_csv content =
        htmlHeadLines ++ thCells default_html_headers ++
          ["</tr>", "</thead>", "<tbody>"] ++
          ["</tbody>", "</table>", "</body>", navBlock, "</html>"] ∧
      bodyRowLines (readCsvArtifact content).2 = [] ∧
      default_html_headers.length = 10 := by
  intro content h
  rcases h with h | h <;> subst h <;>
    exact ⟨rfl, by simp [generate_html_from_csv, readCsvArtifact, bodyRowLines], rfl, rfl⟩

/-- Concrete instantiation of C9: the missing-file case yields the
default headers and an empty table body. -/
theorem C9_missing_artifact_defaults_witness :
    readCsvArtifact (none : Option (List (List String))) = (default_html_headers, []) ∧
    bodyRowLines (readCsvArtifact (none : Option (List (List String)))).2 = [] :=
  ⟨(C9_missing_artifact_defaults none (Or.inl rfl)).1,
   (C9_missing_artifact_defaults none (Or.inl rfl)).2.2.1⟩

/-- Claim C10: the fallback to the built-in default city and job lists
triggers on any falsy configuration value — a missing entry or a
present-but-empty list — so `cities = []` crawls all 33 default cities
(and `jobs = []` all 49 default keywords) rather than zero tasks; a
non-empty list is used as given. -/
theorem C10_falsy_fallback :
    (city_list (some []) = DEFAULT_CITIES ∧ job_list (some []) = DEFAULT_JOBS) ∧
    (city_list none = DEFAULT_CITIES ∧ job_list none = DEFAULT_JOBS) ∧
    (∀ l : List String, l ≠ [] → city_list (some l) = l ∧ job_list (some l) = l) ∧
    (city_list (some [])).length * (job_list (some [])).length = 33 * 49 ∧
    0 < 33 * 49 := by
  refine ⟨⟨rfl, rfl⟩, ⟨rfl, rfl⟩, ?_, rfl, by decide⟩
  intro l hl
  cases l with
  | nil => exact absurd rfl hl
  | cons a t => exact ⟨rfl, rfl⟩

/-- Concrete instantiation of C10: a non-empty one-city list is used as
given, not replaced by the defaults. -/
theorem C10_falsy_fallback_witness :
    city_list (some ["北京"]) = ["北京"] ∧ job_list (some ["北京"]) = ["北京"] :=
  C10_falsy_fallback.2.2.1 ["北京"] (by decide)

end WorkAggregation
